import Mathlib

/-!
Shallow embedding of the NoverThinker backend analytics core
(src/controllers/playersController.js, src/config/redis.js).

JS numbers are modelled as exact rationals; `Math.round` (round half toward
positive infinity) is modelled by `jsRound`.  SQL rows are records; nullable
columns (LEFT JOIN results) are `Option` fields.  Stateful request handlers
are explicit state-passing functions that additionally emit an event trace
recording which tiers were touched.
-/

/-- JS `Math.round`: rounds half toward positive infinity, which is exactly
Mathlib `round` (`round q = ⌊q + 1/2⌋`). -/
def jsRound (q : ℚ) : ℤ := round q

/-- JS null-to-number coercion: a SQL NULL participating in `+` becomes 0. -/
def jsNum (x : Option ℚ) : ℚ := x.getD 0

/-- `analytics.performance_data` (playersController.js lines 334-340). -/
structure PerformanceData where
  overall : ℚ
  matchScore : ℚ
  taskScore : ℚ
  videoScore : ℚ
  physicalScore : ℚ
deriving DecidableEq, Repr

/-- `analytics.work_rate_breakdown` (lines 346-351). -/
structure WorkRateBreakdown where
  attendance : ℤ
  taskCompletion : ℤ
  uploadFrequency : ℤ
  discipline : ℤ
deriving DecidableEq, Repr

/-- `analytics.risk_factors` (lines 354-358). -/
structure RiskFactors where
  consistency : String
  discipline : String
  engagement : String
deriving DecidableEq, Repr

/-- The analytics record built by `calculatePlayerAnalytics` (lines 333-360),
matching the columns of `agent_analytics_cache`. -/
structure Analytics where
  performance_data : PerformanceData
  consistency_score : ℤ
  consistency_level : String
  consistency_trend : String
  work_rate_score : ℚ
  work_rate_level : String
  work_rate_breakdown : WorkRateBreakdown
  risk_score : ℤ
  risk_level : String
  risk_factors : RiskFactors
  last_calculated_at : ℕ
deriving DecidableEq, Repr

/-- The pure part of `calculatePlayerAnalytics` (playersController.js
lines 333-360): derives the analytics record from the raw scores
`player.nova_score` and `player.discipline_score`; `now` stands for
`new Date()`. -/
def deriveAnalytics (nova disc : ℚ) (now : ℕ) : Analytics where
  performance_data :=
    { overall := nova
      matchScore := nova * (45/100)
      taskScore := nova * (25/100)
      videoScore := nova * (15/100)
      physicalScore := nova * (15/100) }
  consistency_score := jsRound (nova * (9/10))
  consistency_level :=
    if nova ≥ 80 then "high" else if nova ≥ 60 then "medium" else "low"
  consistency_trend := "stable"
  work_rate_score := disc
  work_rate_level :=
    if disc ≥ 90 then "elite" else if disc ≥ 75 then "high" else "medium"
  work_rate_breakdown :=
    { attendance := jsRound (disc * (4/10))
      taskCompletion := jsRound (disc * (3/10))
      uploadFrequency := jsRound (disc * (2/10))
      discipline := jsRound (disc * (1/10)) }
  risk_score := 100 - jsRound ((100 - disc) * (1/2))
  risk_level :=
    if disc ≥ 80 then "low" else if disc ≥ 60 then "medium" else "high"
  risk_factors :=
    { consistency := if nova ≥ 70 then "low" else "medium"
      discipline := if disc ≥ 80 then "low" else "medium"
      engagement := "medium" }
  last_calculated_at := now

/-- State of the fast-cache tier (src/config/redis.js).  `clientPresent`
models `redisClient !== null`, `connected` models the `redisConnected` flag,
`callThrows` models the underlying client call raising (connection failure,
timeout).  The store keeps the value together with the TTL it was written
with (serialization via JSON stringify and parse is abstracted away). -/
structure FastCache where
  clientPresent : Bool
  connected : Bool
  callThrows : Bool
  store : String → Option (Analytics × ℕ)

/-- The raw `redisClient.get` call: raises when the connection is broken. -/
def redisRawGet (c : FastCache) (key : String) : Except String (Option Analytics) :=
  if c.callThrows then Except.error "connection failure"
  else Except.ok ((c.store key).map Prod.fst)

/-- The raw `redisClient.setEx` call: raises when the connection is broken. -/
def redisRawSetEx (c : FastCache) (key : String) (ttl : ℕ) (v : Analytics) :
    Except String FastCache :=
  if c.callThrows then Except.error "connection failure"
  else Except.ok
    { c with store := fun k => if k = key then some (v, ttl) else c.store k }

/-- `cache.get` (redis.js lines 60-68): returns `null` when the client is
absent or disconnected, and catches any error from the raw call, returning
`null`.  Total by construction: it never propagates an exception. -/
def cacheGet (c : FastCache) (key : String) : Option Analytics :=
  if c.clientPresent = false ∨ c.connected = false then none
  else
    match redisRawGet c key with
    | Except.error _ => none
    | Except.ok v => v

/-- `cache.set` (redis.js lines 70-78): returns `false` when the client is
absent or disconnected, and catches any error from the raw call, returning
`false`.  Returns the possibly updated cache state and the boolean result. -/
def cacheSet (c : FastCache) (key : String) (v : Analytics) (ttl : ℕ) :
    FastCache × Bool :=
  if c.clientPresent = false ∨ c.connected = false then (c, false)
  else
    match redisRawSetEx c key ttl v with
    | Except.error _ => (c, false)
    | Except.ok c2 => (c2, true)

/-- The fast cache is live: client present, connected, calls succeed. -/
def FastCache.live (c : FastCache) : Prop :=
  c.clientPresent = true ∧ c.connected = true ∧ c.callThrows = false

/-- System state seen by `getPlayerAnalytics`: the `player_profiles` rows
(`nova_score`, `discipline_score` keyed by id), the fast cache, the durable
`agent_analytics_cache` table, and whether the durable upsert raises. -/
structure SysState where
  profiles : String → Option (ℚ × ℚ)
  fast : FastCache
  durable : String → Option Analytics
  upsertFails : Bool

/-- Trace events recording which tiers a request touched. -/
inductive Ev
  | fastRead (key : String)
  | durableRead (pid : String)
  | derived (pid : String)
  | durableUpsert (pid : String)
  | fastWrite (key : String) (ttl : ℕ)
deriving DecidableEq, Repr

/-- Errors surfaced by the analytics read path. -/
inductive ApiError
  | playerNotFound
  | storeError
deriving DecidableEq, Repr

/-- `getPlayerAnalytics` (playersController.js lines 248-283) together with
the persistence part of `calculatePlayerAnalytics` (lines 362-396):
profile lookup, fast-cache lookup under key `analytics:id`, durable lookup
in `agent_analytics_cache`, then derive; the derived record is upserted
(an upsert failure is NOT caught anywhere, so it propagates), and in both
miss cases the served record is written to the fast cache with TTL 3600.
Returns the served record, the new state, and the event trace. -/
def getPlayerAnalytics (st : SysState) (pid : String) (now : ℕ) :
    Except ApiError (Analytics × SysState × List Ev) :=
  match st.profiles pid with
  | none => Except.error ApiError.playerNotFound
  | some (nova, disc) =>
    let key := "analytics:" ++ pid
    match cacheGet st.fast key with
    | some a => Except.ok (a, st, [Ev.fastRead key])
    | none =>
      match st.durable pid with
      | some a =>
        let cs := cacheSet st.fast key a 3600
        Except.ok (a, { st with fast := cs.1 },
          [Ev.fastRead key, Ev.durableRead pid, Ev.fastWrite key 3600])
      | none =>
        let a := deriveAnalytics nova disc now
        if st.upsertFails then Except.error ApiError.storeError
        else
          let st2 := { st with
            durable := fun p => if p = pid then some a else st.durable p }
          let cs := cacheSet st2.fast key a 3600
          Except.ok (a, { st2 with fast := cs.1 },
            [Ev.fastRead key, Ev.durableRead pid, Ev.derived pid,
             Ev.durableUpsert pid, Ev.fastWrite key 3600])

/-- A row of the `comparePlayers` SQL result (playersController.js lines
608-631): player profile joined with `users` and, via LEFT JOIN, the six
`player_attributes` columns, which are therefore nullable. -/
structure PlayerRow where
  id : String
  first_name : String
  last_name : String
  nova_score : ℚ
  pace : Option ℚ
  shooting : Option ℚ
  passing : Option ℚ
  dribbling : Option ℚ
  defending : Option ℚ
  physical : Option ℚ
deriving DecidableEq, Repr

/-- The per-player comparison view assembled at lines 652-698 (restricted to
the fields the verified properties mention). -/
structure ComparisonView where
  id : String
  firstName : String
  lastName : String
  novaScore : ℚ
  overall : ℤ
  pace : Option ℚ
  shooting : Option ℚ
  passing : Option ℚ
  dribbling : Option ℚ
  defending : Option ℚ
  physical : Option ℚ
  consistency : Option (ℤ × String)
  workRate : Option (ℚ × String)
  risk : Option (ℤ × String)
deriving DecidableEq, Repr

/-- Builds one comparison view (lines 652-698).  `overall` is
`Math.round((pace + shooting + passing + dribbling + defending + physical)/6)`
where a SQL NULL attribute coerces to 0 under JS addition (`jsNum`); the
three analytics sub-objects are `null` when the durable cache has no row. -/
def mkComparisonView (r : PlayerRow) (a : Option Analytics) : ComparisonView where
  id := r.id
  firstName := r.first_name
  lastName := r.last_name
  novaScore := r.nova_score
  overall := jsRound ((jsNum r.pace + jsNum r.shooting + jsNum r.passing +
    jsNum r.dribbling + jsNum r.defending + jsNum r.physical) / 6)
  pace := r.pace
  shooting := r.shooting
  passing := r.passing
  dribbling := r.dribbling
  defending := r.defending
  physical := r.physical
  consistency := a.map fun x => (x.consistency_score, x.consistency_level)
  workRate := a.map fun x => (x.work_rate_score, x.work_rate_level)
  risk := a.map fun x => (x.risk_score, x.risk_level)

/-- Errors thrown by `comparePlayers`: `badRequest` is the
`AppError(..., 400)` for bad cardinality (line 604), `notEnoughPlayers` the
`AppError(..., 404)` when fewer than 2 rows match (line 634). -/
inductive CmpError
  | badRequest
  | notEnoughPlayers
deriving DecidableEq, Repr

/-- HTTP status attached to each `comparePlayers` error. -/
def CmpError.status : CmpError → ℕ
  | CmpError.badRequest => 400
  | CmpError.notEnoughPlayers => 404

/-- `comparePlayers` (playersController.js lines 600-707).  `db` is the
durable player table in its own row order; `WHERE pp.id = ANY(playerIds)`
returns the matching rows in that store order, so the result is
`db.filter`, not a reordering by `playerIds`.  `playerIds = none` models a
missing or non-array body field.  Analytics are read from
`agent_analytics_cache` only (`analyticsOf`), and the final views are
assembled by mapping over the store rows. -/
def comparePlayers (db : List PlayerRow) (analyticsOf : String → Option Analytics)
    (playerIds : Option (List String)) : Except CmpError (List ComparisonView) :=
  match playerIds with
  | none => Except.error CmpError.badRequest
  | some ids =>
    if ids.length < 2 ∨ 4 < ids.length then Except.error CmpError.badRequest
    else
      let rows := db.filter fun r => ids.contains r.id
      if rows.length < 2 then Except.error CmpError.notEnoughPlayers
      else Except.ok (rows.map fun r => mkComparisonView r (analyticsOf r.id))

/-! Concrete fixtures used by closed counterexamples and witnesses. -/

/-- A live, empty fast cache. -/
def emptyFast : FastCache :=
  { clientPresent := true, connected := true, callThrows := false
    store := fun _ => none }

/-- A fast cache whose client was never created (redis unavailable). -/
def deadFast : FastCache :=
  { clientPresent := false, connected := false, callThrows := false
    store := fun _ => none }

/-- A profile table holding a single player. -/
def oneProfile (pid : String) (nova disc : ℚ) : String → Option (ℚ × ℚ) :=
  fun p => if p = pid then some (nova, disc) else none

/-- Double-miss state for player `p1` with novaScore 90, disciplineScore 95,
working durable store. -/
def missState : SysState :=
  { profiles := oneProfile "p1" 90 95, fast := emptyFast
    durable := fun _ => none, upsertFails := false }

/-- Double-miss state whose durable upsert raises. -/
def missStateUpsertFail : SysState :=
  { profiles := oneProfile "p1" 90 95, fast := emptyFast
    durable := fun _ => none, upsertFails := true }

/-- Player rows for comparison fixtures; `rowA` and `rowB` have all six
attributes, `rowM` is missing `pace` (NULL from the LEFT JOIN). -/
def rowA : PlayerRow :=
  { id := "a", first_name := "Ann", last_name := "Ayo", nova_score := 80
    pace := some 70, shooting := some 70, passing := some 70
    dribbling := some 70, defending := some 70, physical := some 70 }

def rowB : PlayerRow :=
  { id := "b", first_name := "Ben", last_name := "Bol", nova_score := 75
    pace := some 60, shooting := some 60, passing := some 60
    dribbling := some 60, defending := some 60, physical := some 60 }

def rowM : PlayerRow :=
  { id := "m", first_name := "Mia", last_name := "Moe", nova_score := 50
    pace := none, shooting := some 60, passing := some 60
    dribbling := some 60, defending := some 60, physical := some 60 }

/-- A concrete durable analytics record used by fixtures. -/
def someRecord : Analytics := deriveAnalytics 80 80 5

/-- Fast cache unavailable, durable store holds a record for `p1`. -/
def degradedState : SysState :=
  { profiles := oneProfile "p1" 90 95, fast := deadFast
    durable := fun p => if p = "p1" then some someRecord else none
    upsertFails := false }

/-! ## Theorems -/

/-- Claim C9: for a fixed raw-score input, two calls of the deriver produce
identical records in every field except `last_calculated_at`; the derived
output depends only on the raw scores. -/
theorem c9_derive_deterministic (nova disc : ℚ) (t1 t2 : ℕ) :
    { deriveAnalytics nova disc t1 with last_calculated_at := t2 } =
      deriveAnalytics nova disc t2 := rfl

/-- Claim C6: on a double cache miss for a player with novaScore 90 and
disciplineScore 95, the derived record has performance overall 90,
consistency score 81, work-rate score 95 at level elite, and risk score 97
at level low. -/
theorem c6_miss_then_derive :
    (∃ st2, getPlayerAnalytics missState "p1" 0 =
      Except.ok (deriveAnalytics 90 95 0, st2,
        [Ev.fastRead "analytics:p1", Ev.durableRead "p1", Ev.derived "p1",
         Ev.durableUpsert "p1", Ev.fastWrite "analytics:p1" 3600])) ∧
    (deriveAnalytics 90 95 0).performance_data.overall = 90 ∧
    (deriveAnalytics 90 95 0).consistency_score = 81 ∧
    (deriveAnalytics 90 95 0).work_rate_score = 95 ∧
    (deriveAnalytics 90 95 0).work_rate_level = "elite" ∧
    (deriveAnalytics 90 95 0).risk_score = 97 ∧
    (deriveAnalytics 90 95 0).risk_level = "low" := by
  refine ⟨⟨_, rfl⟩, rfl, ?_, rfl, ?_, ?_, ?_⟩ <;>
    norm_num [deriveAnalytics, jsRound, round_eq]

/-- Claim C2 (amended): when both cache tiers miss and the durable upsert of
the freshly derived record fails, the error propagates to the caller (there
is no catch around the upsert) and the request fails instead of returning
the derived record. -/
theorem c2_upsert_failure_propagates (st : SysState) (pid : String) (now : ℕ)
    (nova disc : ℚ) (hp : st.profiles pid = some (nova, disc))
    (hc : cacheGet st.fast ("analytics:" ++ pid) = none)
    (hd : st.durable pid = none) (hf : st.upsertFails = true) :
    getPlayerAnalytics st pid now = Except.error ApiError.storeError := by
  simp [getPlayerAnalytics, hp, hc, hd, hf]

/-- Claim C2 witness: the amended claim at the concrete double-miss state
with a failing upsert. -/
theorem c2_upsert_failure_propagates_witness :
    getPlayerAnalytics missStateUpsertFail "p1" 0 =
      Except.error ApiError.storeError :=
  c2_upsert_failure_propagates missStateUpsertFail "p1" 0 90 95 rfl rfl rfl rfl

/-- Claim C2 counterexample: on a double cache miss with a failing durable
upsert, the request errors out and the freshly derived record is never
returned, contradicting the claim that the error is swallowed. -/
theorem c2_counterexample :
    getPlayerAnalytics missStateUpsertFail "p1" 0 =
      Except.error ApiError.storeError ∧
    ∀ a st2 l, getPlayerAnalytics missStateUpsertFail "p1" 0 ≠
      Except.ok (a, st2, l) := by
  constructor
  · rfl
  · intro a st2 l h
    rw [show getPlayerAnalytics missStateUpsertFail "p1" 0 =
      Except.error ApiError.storeError from rfl] at h
    exact Except.noConfusion h

/-- Rounding moves a rational by at most one half. -/
theorem jsRound_abs_sub (q : ℚ) : |(jsRound q : ℚ) - q| ≤ 1/2 := by
  rw [jsRound, abs_sub_comm]
  exact abs_sub_round q

/-- On natural inputs, rounding half of `m` is integer division of `m + 1`
by 2. -/
theorem jsRound_half_nat (m : ℕ) : jsRound ((m : ℚ) * (1/2)) = ((m : ℤ) + 1) / 2 := by
  rw [jsRound, round_eq]
  have e : (m : ℚ) * (1/2) + 1/2 = (((m : ℤ) + 1 : ℤ) : ℚ) / ((2 : ℕ) : ℚ) := by
    push_cast
    ring
  rw [e, Rat.floor_intCast_div_natCast]
  norm_num

/-- Claim C7: for a discipline score in 0-100, the four work-rate breakdown
components are the independently rounded weighted shares and their sum is
within 4 of the work-rate score (in fact within 2); no re-normalization
happens after rounding. -/
theorem c7_breakdown_sum (nova : ℚ) (now : ℕ) (d : ℕ) (h : d ≤ 100) :
    (deriveAnalytics nova (d : ℚ) now).work_rate_breakdown.attendance =
      jsRound ((d : ℚ) * (4/10)) ∧
    (deriveAnalytics nova (d : ℚ) now).work_rate_breakdown.taskCompletion =
      jsRound ((d : ℚ) * (3/10)) ∧
    (deriveAnalytics nova (d : ℚ) now).work_rate_breakdown.uploadFrequency =
      jsRound ((d : ℚ) * (2/10)) ∧
    (deriveAnalytics nova (d : ℚ) now).work_rate_breakdown.discipline =
      jsRound ((d : ℚ) * (1/10)) ∧
    ((deriveAnalytics nova (d : ℚ) now).work_rate_breakdown.attendance +
     (deriveAnalytics nova (d : ℚ) now).work_rate_breakdown.taskCompletion +
     (deriveAnalytics nova (d : ℚ) now).work_rate_breakdown.uploadFrequency +
     (deriveAnalytics nova (d : ℚ) now).work_rate_breakdown.discipline -
      (d : ℤ)).natAbs ≤ 4 := by
  refine ⟨rfl, rfl, rfl, rfl, ?_⟩
  show (jsRound ((d : ℚ) * (4/10)) + jsRound ((d : ℚ) * (3/10)) +
    jsRound ((d : ℚ) * (2/10)) + jsRound ((d : ℚ) * (1/10)) - (d : ℤ)).natAbs ≤ 4
  have h1 := jsRound_abs_sub ((d : ℚ) * (4/10))
  have h2 := jsRound_abs_sub ((d : ℚ) * (3/10))
  have h3 := jsRound_abs_sub ((d : ℚ) * (2/10))
  have h4 := jsRound_abs_sub ((d : ℚ) * (1/10))
  rw [abs_le] at h1 h2 h3 h4
  have key : |((jsRound ((d : ℚ) * (4/10)) + jsRound ((d : ℚ) * (3/10)) +
      jsRound ((d : ℚ) * (2/10)) + jsRound ((d : ℚ) * (1/10)) - (d : ℤ) : ℤ) : ℚ)| ≤ 2 := by
    rw [show ((jsRound ((d : ℚ) * (4/10)) + jsRound ((d : ℚ) * (3/10)) +
        jsRound ((d : ℚ) * (2/10)) + jsRound ((d : ℚ) * (1/10)) - (d : ℤ) : ℤ) : ℚ) =
        ((jsRound ((d : ℚ) * (4/10)) : ℚ) - (d : ℚ) * (4/10)) +
        ((jsRound ((d : ℚ) * (3/10)) : ℚ) - (d : ℚ) * (3/10)) +
        ((jsRound ((d : ℚ) * (2/10)) : ℚ) - (d : ℚ) * (2/10)) +
        ((jsRound ((d : ℚ) * (1/10)) : ℚ) - (d : ℚ) * (1/10)) from by push_cast; ring,
      abs_le]
    constructor <;> linarith [h1.1, h1.2, h2.1, h2.2, h3.1, h3.2, h4.1, h4.2]
  have kz : |jsRound ((d : ℚ) * (4/10)) + jsRound ((d : ℚ) * (3/10)) +
      jsRound ((d : ℚ) * (2/10)) + jsRound ((d : ℚ) * (1/10)) - (d : ℤ)| ≤ 2 := by
    exact_mod_cast key
  rw [abs_le] at kz
  omega

/-- Claim C7 witness: the bound at disciplineScore 95. -/
theorem c7_breakdown_sum_witness :
    (95 : ℕ) ≤ 100 ∧
    ((deriveAnalytics 90 ((95 : ℕ) : ℚ) 0).work_rate_breakdown.attendance =
      jsRound (((95 : ℕ) : ℚ) * (4/10)) ∧
    (deriveAnalytics 90 ((95 : ℕ) : ℚ) 0).work_rate_breakdown.taskCompletion =
      jsRound (((95 : ℕ) : ℚ) * (3/10)) ∧
    (deriveAnalytics 90 ((95 : ℕ) : ℚ) 0).work_rate_breakdown.uploadFrequency =
      jsRound (((95 : ℕ) : ℚ) * (2/10)) ∧
    (deriveAnalytics 90 ((95 : ℕ) : ℚ) 0).work_rate_breakdown.discipline =
      jsRound (((95 : ℕ) : ℚ) * (1/10)) ∧
    ((deriveAnalytics 90 ((95 : ℕ) : ℚ) 0).work_rate_breakdown.attendance +
     (deriveAnalytics 90 ((95 : ℕ) : ℚ) 0).work_rate_breakdown.taskCompletion +
     (deriveAnalytics 90 ((95 : ℕ) : ℚ) 0).work_rate_breakdown.uploadFrequency +
     (deriveAnalytics 90 ((95 : ℕ) : ℚ) 0).work_rate_breakdown.discipline -
      ((95 : ℕ) : ℤ)).natAbs ≤ 4) :=
  ⟨by decide, c7_breakdown_sum 90 0 95 (by decide)⟩

/-- Claim C10 (amended): for disciplineScore in 0-100, the derived risk
score `100 - round((100 - d) * 0.5)` lies in [50, 100] and falls below 60
exactly when d is below 20; however the risk level is computed directly
from the discipline score, not from the risk score, so level high occurs
exactly when d is below 60 (not only below 20). -/
theorem c10_risk_bounds (nova : ℚ) (now : ℕ) (d : ℕ) (h : d ≤ 100) :
    50 ≤ (deriveAnalytics nova (d : ℚ) now).risk_score ∧
    (deriveAnalytics nova (d : ℚ) now).risk_score ≤ 100 ∧
    ((deriveAnalytics nova (d : ℚ) now).risk_score < 60 ↔ d < 20) ∧
    ((deriveAnalytics nova (d : ℚ) now).risk_level = "high" ↔ d < 60) := by
  have hs : (deriveAnalytics nova (d : ℚ) now).risk_score =
      100 - (((100 - d : ℕ) : ℤ) + 1) / 2 := by
    show 100 - jsRound ((100 - (d : ℚ)) * (1/2)) = _
    rw [show (100 - (d : ℚ)) = ((100 - d : ℕ) : ℚ) from by
      push_cast [Nat.cast_sub h]; ring]
    rw [jsRound_half_nat]
  have hcast : ((100 - d : ℕ) : ℤ) = 100 - (d : ℤ) := by
    omega
  rw [hcast] at hs
  have hlev : (deriveAnalytics nova (d : ℚ) now).risk_level =
      if (d : ℚ) ≥ 80 then "low" else if (d : ℚ) ≥ 60 then "medium" else "high" := rfl
  refine ⟨by rw [hs]; omega, by rw [hs]; omega, by rw [hs]; omega, ?_⟩
  rw [hlev]
  by_cases h60 : d < 60
  · have q80 : ¬((d : ℚ) ≥ 80) := by
      rw [not_le]
      exact_mod_cast Nat.lt_of_lt_of_le h60 (by norm_num)
    have q60 : ¬((d : ℚ) ≥ 60) := by
      rw [not_le]
      exact_mod_cast h60
    simp [q80, q60, h60]
  · by_cases h80 : d < 80
    · have q80 : ¬((d : ℚ) ≥ 80) := by
        rw [not_le]
        exact_mod_cast h80
      have q60 : (d : ℚ) ≥ 60 := by
        exact_mod_cast Nat.le_of_not_lt h60
      simp [q80, q60, h60]
    · have q80 : (d : ℚ) ≥ 80 := by
        exact_mod_cast Nat.le_of_not_lt h80
      simp [q80, h60]

/-- Claim C10 witness: the amended bounds at disciplineScore 30. -/
theorem c10_risk_bounds_witness :
    (30 : ℕ) ≤ 100 ∧
    (50 ≤ (deriveAnalytics 70 ((30 : ℕ) : ℚ) 0).risk_score ∧
    (deriveAnalytics 70 ((30 : ℕ) : ℚ) 0).risk_score ≤ 100 ∧
    ((deriveAnalytics 70 ((30 : ℕ) : ℚ) 0).risk_score < 60 ↔ (30 : ℕ) < 20) ∧
    ((deriveAnalytics 70 ((30 : ℕ) : ℚ) 0).risk_level = "high" ↔ (30 : ℕ) < 60)) :=
  ⟨by decide, c10_risk_bounds 70 0 30 (by decide)⟩

/-- Claim C10 counterexample: at disciplineScore 30 the derivation yields
risk level high with risk score 65, although 30 is not below 20 and the
score is not below 60 — risk level high is reachable well above
disciplineScore 20, refuting the claim as stated. -/
theorem c10_counterexample :
    (deriveAnalytics 70 30 0).risk_level = "high" ∧
    (deriveAnalytics 70 30 0).risk_score = 65 ∧
    ¬((30 : ℕ) < 20) ∧
    ¬((deriveAnalytics 70 30 0).risk_score < 60) := by
  refine ⟨rfl, ?_, by norm_num, ?_⟩ <;>
    norm_num [deriveAnalytics, jsRound, round_eq]

/-- Claim C8: the fast-cache helpers never surface an error: whenever the
client is absent, disconnected, or the underlying call throws, `cacheGet`
returns null and `cacheSet` returns false; and `getPlayerAnalytics` under
fast-cache unavailability still serves the record found in the durable
store. -/
theorem c8_cache_never_raises :
    (∀ (c : FastCache) (key : String),
      c.clientPresent = false ∨ c.connected = false ∨ c.callThrows = true →
      cacheGet c key = none) ∧
    (∀ (c : FastCache) (key : String) (v : Analytics) (ttl : ℕ),
      c.clientPresent = false ∨ c.connected = false ∨ c.callThrows = true →
      (cacheSet c key v ttl).2 = false) ∧
    (∀ (st : SysState) (pid : String) (now : ℕ) (nova disc : ℚ) (a : Analytics),
      st.profiles pid = some (nova, disc) →
      (st.fast.clientPresent = false ∨ st.fast.connected = false ∨
        st.fast.callThrows = true) →
      st.durable pid = some a →
      ∃ st2 l, getPlayerAnalytics st pid now = Except.ok (a, st2, l)) := by
  have hget : ∀ (c : FastCache) (key : String),
      c.clientPresent = false ∨ c.connected = false ∨ c.callThrows = true →
      cacheGet c key = none := by
    intro c key hu
    rcases hu with hu | hu | hu
    · simp [cacheGet, hu]
    · simp [cacheGet, hu]
    · cases hp : c.clientPresent with
      | false => simp [cacheGet, hp]
      | true =>
        cases hc : c.connected with
        | false => simp [cacheGet, hc]
        | true => simp [cacheGet, redisRawGet, hp, hc, hu]
  refine ⟨hget, ?_, ?_⟩
  · intro c key v ttl hu
    rcases hu with hu | hu | hu
    · simp [cacheSet, hu]
    · simp [cacheSet, hu]
    · cases hp : c.clientPresent with
      | false => simp [cacheSet, hp]
      | true =>
        cases hc : c.connected with
        | false => simp [cacheSet, hc]
        | true => simp [cacheSet, redisRawSetEx, hp, hc, hu]
  · intro st pid now nova disc a hp hu hd
    have hc := hget st.fast ("analytics:" ++ pid) hu
    exact ⟨{ st with fast := (cacheSet st.fast ("analytics:" ++ pid) a 3600).1 },
      [Ev.fastRead ("analytics:" ++ pid), Ev.durableRead pid,
       Ev.fastWrite ("analytics:" ++ pid) 3600],
      by simp [getPlayerAnalytics, hp, hc, hd]⟩

/-- Claim C8 witness: the three parts at a dead client and at the degraded
state whose durable store holds a record for player p1. -/
theorem c8_cache_never_raises_witness :
    (deadFast.clientPresent = false ∨ deadFast.connected = false ∨
      deadFast.callThrows = true) ∧
    cacheGet deadFast "k" = none ∧
    (cacheSet deadFast "k" someRecord 60).2 = false ∧
    ∃ st2 l, getPlayerAnalytics degradedState "p1" 0 =
      Except.ok (someRecord, st2, l) :=
  ⟨Or.inl rfl,
   c8_cache_never_raises.1 deadFast "k" (Or.inl rfl),
   c8_cache_never_raises.2.1 deadFast "k" someRecord 60 (Or.inl rfl),
   c8_cache_never_raises.2.2 degradedState "p1" 0 90 95 someRecord rfl
     (Or.inl rfl) rfl⟩

/-- Claim C5: lookup order fast cache, then durable store, then
derive-and-persist, short-circuiting on the first hit.  A fast-cache hit is
served with no durable read (the trace holds no durable-read event); a
durable hit is served regardless of age and written through to the fast
cache, so a subsequent fast-cache read succeeds; on a double miss the
derived record is upserted into the durable store and written to the fast
cache with TTL 3600, so a subsequent fast-cache read succeeds. -/
theorem c5_tier_precedence (st : SysState) (pid : String) (now : ℕ)
    (nova disc : ℚ) (hp : st.profiles pid = some (nova, disc)) :
    (∀ a, cacheGet st.fast ("analytics:" ++ pid) = some a →
      getPlayerAnalytics st pid now =
        Except.ok (a, st, [Ev.fastRead ("analytics:" ++ pid)]) ∧
      ∀ q, Ev.durableRead q ∉ [Ev.fastRead ("analytics:" ++ pid)]) ∧
    (cacheGet st.fast ("analytics:" ++ pid) = none →
      st.fast.live →
      ∀ a, st.durable pid = some a →
      ∃ st2, getPlayerAnalytics st pid now = Except.ok (a, st2,
          [Ev.fastRead ("analytics:" ++ pid), Ev.durableRead pid,
           Ev.fastWrite ("analytics:" ++ pid) 3600]) ∧
        cacheGet st2.fast ("analytics:" ++ pid) = some a) ∧
    (cacheGet st.fast ("analytics:" ++ pid) = none →
      st.fast.live →
      st.durable pid = none →
      st.upsertFails = false →
      ∃ st2, getPlayerAnalytics st pid now =
          Except.ok (deriveAnalytics nova disc now, st2,
            [Ev.fastRead ("analytics:" ++ pid), Ev.durableRead pid,
             Ev.derived pid, Ev.durableUpsert pid,
             Ev.fastWrite ("analytics:" ++ pid) 3600]) ∧
        st2.durable pid = some (deriveAnalytics nova disc now) ∧
        st2.fast.store ("analytics:" ++ pid) =
          some (deriveAnalytics nova disc now, 3600) ∧
        cacheGet st2.fast ("analytics:" ++ pid) =
          some (deriveAnalytics nova disc now)) := by
  refine ⟨?_, ?_, ?_⟩
  · intro a hc
    refine ⟨by simp [getPlayerAnalytics, hp, hc], by simp⟩
  · intro hc hlive a hd
    obtain ⟨l1, l2, l3⟩ := hlive
    refine ⟨{ st with fast := (cacheSet st.fast ("analytics:" ++ pid) a 3600).1 },
      by simp [getPlayerAnalytics, hp, hc, hd], ?_⟩
    simp [cacheSet, redisRawSetEx, l1, l2, l3, cacheGet, redisRawGet]
  · intro hc hlive hd hu
    obtain ⟨l1, l2, l3⟩ := hlive
    refine ⟨{ st with
        durable := fun p => if p = pid then some (deriveAnalytics nova disc now)
          else st.durable p
        fast := (cacheSet st.fast ("analytics:" ++ pid)
          (deriveAnalytics nova disc now) 3600).1 },
      ?_, by simp, ?_, ?_⟩
    · simp [getPlayerAnalytics, hp, hc, hd, hu, cacheSet, redisRawSetEx, l1, l2, l3]
    · simp [cacheSet, redisRawSetEx, l1, l2, l3]
    · simp [cacheSet, redisRawSetEx, l1, l2, l3, cacheGet, redisRawGet]

/-- Claim C5 witness: the double-miss branch at the concrete miss state,
followed by the fast-cache-hit read on the produced state. -/
theorem c5_tier_precedence_witness :
    missState.profiles "p1" = some (90, 95) ∧
    cacheGet missState.fast "analytics:p1" = none ∧
    missState.fast.live ∧
    missState.durable "p1" = none ∧
    missState.upsertFails = false ∧
    ∃ st2, getPlayerAnalytics missState "p1" 0 =
        Except.ok (deriveAnalytics 90 95 0, st2,
          [Ev.fastRead "analytics:p1", Ev.durableRead "p1",
           Ev.derived "p1", Ev.durableUpsert "p1",
           Ev.fastWrite "analytics:p1" 3600]) ∧
      st2.durable "p1" = some (deriveAnalytics 90 95 0) ∧
      st2.fast.store "analytics:p1" = some (deriveAnalytics 90 95 0, 3600) ∧
      cacheGet st2.fast "analytics:p1" = some (deriveAnalytics 90 95 0) :=
  ⟨rfl, rfl, ⟨rfl, rfl, rfl⟩, rfl, rfl,
    (c5_tier_precedence missState "p1" 0 90 95 rfl).2.2 rfl ⟨rfl, rfl, rfl⟩ rfl rfl⟩

/-- Claim C1 (amended): a successful `compare` returns the views in the
order the durable store returns the matching rows (the row order of the
player table), not in the caller-supplied order of `playerIds`. -/
theorem c1_output_in_store_order (db : List PlayerRow)
    (analyticsOf : String → Option Analytics) (ids : List String)
    (h2 : 2 ≤ ids.length) (h4 : ids.length ≤ 4)
    (hr : 2 ≤ (db.filter fun r => ids.contains r.id).length) :
    comparePlayers db analyticsOf (some ids) =
      Except.ok ((db.filter fun r => ids.contains r.id).map
        fun r => mkComparisonView r (analyticsOf r.id)) := by
  have hb : ¬(ids.length < 2 ∨ 4 < ids.length) := by omega
  simp only [comparePlayers, hb, if_false]
  rw [if_neg (by omega)]

/-- Claim C1 witness: the amended order statement at the concrete
two-player store queried in reversed order. -/
theorem c1_output_in_store_order_witness :
    2 ≤ (["b", "a"] : List String).length ∧
    (["b", "a"] : List String).length ≤ 4 ∧
    2 ≤ (([rowA, rowB].filter fun r => (["b", "a"] : List String).contains r.id).length) ∧
    comparePlayers [rowA, rowB] (fun _ => none) (some ["b", "a"]) =
      Except.ok (([rowA, rowB].filter
        fun r => (["b", "a"] : List String).contains r.id).map
        fun r => mkComparisonView r none) :=
  ⟨by decide, by decide, by decide,
    c1_output_in_store_order [rowA, rowB] (fun _ => none) ["b", "a"]
      (by decide) (by decide) (by decide)⟩

/-- Claim C1 counterexample: with the store holding rows in order a, b,
`compare([b, a])` returns the views in order a, b — the store order — and
not in the caller-supplied order b, a as claimed. -/
theorem c1_counterexample :
    (comparePlayers [rowA, rowB] (fun _ => none) (some ["b", "a"])).map
      (List.map ComparisonView.id) = Except.ok ["a", "b"] ∧
    (["a", "b"] : List String) ≠ ["b", "a"] := by
  constructor
  · rfl
  · decide

/-- Claim C3 (amended): in a comparison view, `overall` is always the
rounded mean over the six attributes with a missing (NULL) attribute
coerced to 0 by JS addition; when all six are present this is the rounded
arithmetic mean, but when one is missing the result is a number computed
with 0 in its place, never null. -/
theorem c3_overall_mean (r : PlayerRow) (a : Option Analytics) :
    (mkComparisonView r a).overall =
      jsRound ((jsNum r.pace + jsNum r.shooting + jsNum r.passing +
        jsNum r.dribbling + jsNum r.defending + jsNum r.physical) / 6) ∧
    (∀ p s pa dr de ph, r.pace = some p → r.shooting = some s →
      r.passing = some pa → r.dribbling = some dr → r.defending = some de →
      r.physical = some ph →
      (mkComparisonView r a).overall =
        jsRound ((p + s + pa + dr + de + ph) / 6)) := by
  refine ⟨rfl, ?_⟩
  intro p s pa dr de ph hp hs hpa hdr hde hph
  show jsRound ((jsNum r.pace + jsNum r.shooting + jsNum r.passing +
    jsNum r.dribbling + jsNum r.defending + jsNum r.physical) / 6) = _
  rw [hp, hs, hpa, hdr, hde, hph]
  rfl

/-- Claim C3 witness: the amended statement at a row with all six
attributes equal to 60: overall is the rounded mean 60. -/
theorem c3_overall_mean_witness :
    rowB.pace = some 60 ∧
    (mkComparisonView rowB none).overall =
      jsRound (((60 : ℚ) + 60 + 60 + 60 + 60 + 60) / 6) ∧
    (mkComparisonView rowB none).overall = 60 := by
  refine ⟨rfl, (c3_overall_mean rowB none).2 60 60 60 60 60 60
    rfl rfl rfl rfl rfl rfl, ?_⟩
  show jsRound ((jsNum rowB.pace + jsNum rowB.shooting + jsNum rowB.passing +
    jsNum rowB.dribbling + jsNum rowB.defending + jsNum rowB.physical) / 6) = 60
  norm_num [rowB, jsNum, jsRound, round_eq]

/-- Claim C3 counterexample: for a player whose pace attribute is missing
(NULL from the LEFT JOIN) the comparison still succeeds and assigns the
numeric overall 50 — the missing attribute was treated as 0 — instead of
the null the claim requires. -/
theorem c3_counterexample :
    rowM.pace = none ∧
    (mkComparisonView rowM none).overall = 50 ∧
    (comparePlayers [rowM, rowB] (fun _ => none) (some ["m", "b"])).map
      (List.map ComparisonView.overall) = Except.ok [50, 60] := by
  refine ⟨rfl, ?_, ?_⟩
  · show jsRound ((jsNum rowM.pace + jsNum rowM.shooting + jsNum rowM.passing +
      jsNum rowM.dribbling + jsNum rowM.defending + jsNum rowM.physical) / 6) = 50
    norm_num [rowM, jsNum, jsRound, round_eq]
  · have e1 : (mkComparisonView rowM none).overall = 50 := by
      show jsRound ((jsNum rowM.pace + jsNum rowM.shooting + jsNum rowM.passing +
        jsNum rowM.dribbling + jsNum rowM.defending + jsNum rowM.physical) / 6) = 50
      norm_num [rowM, jsNum, jsRound, round_eq]
    have e2 : (mkComparisonView rowB none).overall = 60 := by
      show jsRound ((jsNum rowB.pace + jsNum rowB.shooting + jsNum rowB.passing +
        jsNum rowB.dribbling + jsNum rowB.defending + jsNum rowB.physical) / 6) = 60
      norm_num [rowB, jsNum, jsRound, round_eq]
    have hcmp : comparePlayers [rowM, rowB] (fun _ => none) (some ["m", "b"]) =
        Except.ok [mkComparisonView rowM none, mkComparisonView rowB none] := rfl
    rw [hcmp]
    simp [Except.map, e1, e2]

/-- Claim C4 (amended): `comparePlayers` fails with the 400 bad-request
error when `playerIds` is missing or has fewer than 2 or more than 4
entries; when the entries resolve to fewer than 2 matching player rows
(for example duplicates of a single id) it fails with the 404
not-enough-players error, not the 400 one; and with 2-4 ids resolving to
at least 2 rows it succeeds. -/
theorem c4_cardinality (db : List PlayerRow)
    (analyticsOf : String → Option Analytics) :
    comparePlayers db analyticsOf none = Except.error CmpError.badRequest ∧
    CmpError.badRequest.status = 400 ∧
    CmpError.notEnoughPlayers.status = 404 ∧
    (∀ ids : List String, ids.length < 2 ∨ 4 < ids.length →
      comparePlayers db analyticsOf (some ids) =
        Except.error CmpError.badRequest) ∧
    (∀ ids : List String, 2 ≤ ids.length → ids.length ≤ 4 →
      (db.filter fun r => ids.contains r.id).length < 2 →
      comparePlayers db analyticsOf (some ids) =
        Except.error CmpError.notEnoughPlayers) ∧
    (∀ ids : List String, 2 ≤ ids.length → ids.length ≤ 4 →
      2 ≤ (db.filter fun r => ids.contains r.id).length →
      ∃ views, comparePlayers db analyticsOf (some ids) = Except.ok views) := by
  refine ⟨rfl, rfl, rfl, ?_, ?_, ?_⟩
  · intro ids hbad
    simp [comparePlayers, hbad]
  · intro ids hlo hhi hfew
    have hb : ¬(ids.length < 2 ∨ 4 < ids.length) := by omega
    simp only [comparePlayers, hb, if_false]
    rw [if_pos hfew]
  · intro ids hlo hhi hmany
    have hb : ¬(ids.length < 2 ∨ 4 < ids.length) := by omega
    refine ⟨(db.filter fun r => ids.contains r.id).map
      (fun r => mkComparisonView r (analyticsOf r.id)), ?_⟩
    simp only [comparePlayers, hb, if_false]
    rw [if_neg (by omega)]

/-- Claim C4 witness: the amended statements at concrete inputs, including
a successful `compare([a, b])` with both players present. -/
theorem c4_cardinality_witness :
    ((["a", "a"] : List String).length < 2 ∨ 4 < (["a", "a"] : List String).length →
      False) ∧
    ([rowA].filter fun r => (["a", "a"] : List String).contains r.id).length < 2 ∧
    comparePlayers [rowA] (fun _ => none) (some ["a", "a"]) =
      Except.error CmpError.notEnoughPlayers ∧
    ((["a"] : List String).length < 2 ∨ 4 < (["a"] : List String).length) ∧
    comparePlayers [rowA, rowB] (fun _ => none) (some ["a"]) =
      Except.error CmpError.badRequest ∧
    ∃ views, comparePlayers [rowA, rowB] (fun _ => none) (some ["a", "b"]) =
      Except.ok views :=
  ⟨by decide,
   by decide,
   (c4_cardinality [rowA] (fun _ => none)).2.2.2.2.1 ["a", "a"]
     (by decide) (by decide) (by decide),
   by decide,
   (c4_cardinality [rowA, rowB] (fun _ => none)).2.2.2.1 ["a"] (by decide),
   (c4_cardinality [rowA, rowB] (fun _ => none)).2.2.2.2.2 ["a", "b"]
     (by decide) (by decide) (by decide)⟩

/-- Claim C4 counterexample: `compare(["a", "a"])` against a store holding
only player a resolves to a single row and fails with the 404
not-enough-players error, not with the 400 invalid-argument error the
claim asserts. -/
theorem c4_counterexample :
    comparePlayers [rowA] (fun _ => none) (some ["a", "a"]) =
      Except.error CmpError.notEnoughPlayers ∧
    CmpError.notEnoughPlayers.status = 404 ∧
    CmpError.notEnoughPlayers.status ≠ 400 := by
  refine ⟨rfl, rfl, by decide⟩
